import Mathlib

/-!
# Verification of the structkit file-materialization engine and its CLI layer

Shallow embedding of the `httpdss/structkit` repository.  The repository's
`src/` tree contains `struct_module/__init__.py` (version lookup) and the
test suites `tests/test_env_var_cli_args.py` and
`tests/test_env_var_structures_path.py`, which exercise the
`structkit.commands.generate.GenerateCommand` CLI layer.  The CLI layer
itself and the file-materialization core are not part of `src/`; they are
modelled here from the specification (each such definition carries a
`Modelled from the spec:` doc comment).
-/

set_option linter.unusedVariables false

namespace Structkit

/-- An environment: a partial map from variable names to string values. -/
def Env : Type := String → Option String

/-- `Modelled from the spec:` the environment-derived defaults captured by
the missing `GenerateCommand.__init__` when the argument parser is built.
One field per configurable option, holding the value that `argparse` would
use when the corresponding CLI flag is absent. -/
structure Defaults where
  fileStrategy : String
  backup : Option String
  inputStore : String
  structuresPath : Option String
  output : String
  globalSystemPrompt : Option String
  nonInteractive : Bool
  deriving DecidableEq, Repr

/-- ASCII lowercasing of one character (Python's `str.lower` on ASCII). -/
def lowerChar (c : Char) : Char :=
  if 'A' ≤ c ∧ c ≤ 'Z' then Char.ofNat (c.toNat + 32) else c

/-- ASCII lowercasing of a string. -/
def lowerString (s : String) : String :=
  ⟨s.data.map lowerChar⟩

/-- `Modelled from the spec:` the parsing of a boolean-valued
`STRUCTKIT_NON_INTERACTIVE` environment variable by the missing
`GenerateCommand`: true iff the value, lowercased, is one of
`true`, `1`, `yes`; unset yields false. -/
def parseBoolEnv (v : Option String) : Bool :=
  match v with
  | none => false
  | some s =>
    lowerString s == "true" || lowerString s == "1" || lowerString s == "yes"

/-- Read a variable with a hard default for the unset case. -/
def envOr (e : Env) (key : String) (dflt : String) : String :=
  (e key).getD dflt

/-- `Modelled from the spec:` construction of the missing `GenerateCommand`:
all `STRUCTKIT_*` variables are read exactly here, once, into the parser's
defaults. -/
def mkDefaults (e : Env) : Defaults where
  fileStrategy := envOr e "STRUCTKIT_FILE_STRATEGY" "overwrite"
  backup := e "STRUCTKIT_BACKUP_PATH"
  inputStore := envOr e "STRUCTKIT_INPUT_STORE" "/tmp/structkit/input.json"
  structuresPath := e "STRUCTKIT_STRUCTURES_PATH"
  output := envOr e "STRUCTKIT_OUTPUT_MODE" "file"
  globalSystemPrompt := e "STRUCTKIT_GLOBAL_SYSTEM_PROMPT"
  nonInteractive := parseBoolEnv (e "STRUCTKIT_NON_INTERACTIVE")

/-- The command line: for each value-taking flag, `some v` when the flag was
given with value `v` and `none` when it was absent; `nonInteractive` is true
when the store-true flag `--non-interactive` was given. -/
structure Cli where
  fileStrategy : Option String := none
  backup : Option String := none
  inputStore : Option String := none
  structuresPath : Option String := none
  output : Option String := none
  globalSystemPrompt : Option String := none
  nonInteractive : Bool := false
  deriving DecidableEq, Repr

/-- The resolved argument values, as found on the `args` namespace after
`parse_args`. -/
structure Args where
  fileStrategy : String
  backup : Option String
  inputStore : String
  structuresPath : Option String
  output : String
  globalSystemPrompt : Option String
  nonInteractive : Bool
  deriving DecidableEq, Repr

/-- The first defined of two optional values (an explicit flag shadowing a
captured default). -/
def firstSome (a b : Option String) : Option String :=
  match a with
  | some v => some v
  | none => b

/-- `Modelled from the spec:` argument parsing by the missing
`GenerateCommand`: an explicit flag wins, otherwise the default captured at
construction time is used.  The environment as it stands at parsing time is
passed in (`eLater`) because the real interpreter could consult it here; the
modelled code never does. -/
def parsePhase (d : Defaults) (c : Cli) (eLater : Env) : Args where
  fileStrategy := c.fileStrategy.getD d.fileStrategy
  backup := firstSome c.backup d.backup
  inputStore := c.inputStore.getD d.inputStore
  structuresPath := firstSome c.structuresPath d.structuresPath
  output := c.output.getD d.output
  globalSystemPrompt := firstSome c.globalSystemPrompt d.globalSystemPrompt
  nonInteractive := c.nonInteractive || d.nonInteractive

/-- The two-phase pipeline: defaults captured from the environment `e1` at
construction, arguments parsed later under the (possibly different)
environment `e2`. -/
def resolveTwoPhase (e1 e2 : Env) (c : Cli) : Args :=
  parsePhase (mkDefaults e1) c e2

/-- Resolution when the environment does not change between construction and
parsing. -/
def resolveArgs (e : Env) (c : Cli) : Args :=
  resolveTwoPhase e e c

/-- The names of all environment variables the CLI layer reads. -/
def structkitKeys : List String :=
  ["STRUCTKIT_FILE_STRATEGY", "STRUCTKIT_BACKUP_PATH", "STRUCTKIT_INPUT_STORE",
   "STRUCTKIT_STRUCTURES_PATH", "STRUCTKIT_OUTPUT_MODE",
   "STRUCTKIT_GLOBAL_SYSTEM_PROMPT", "STRUCTKIT_NON_INTERACTIVE"]

/-- Precedence of an explicit flag over a variable over a hard default, for
a string-valued option. -/
def PrecedenceStr (cli envVal : Option String) (dflt resolved : String) : Prop :=
  (∀ v, cli = some v → resolved = v) ∧
  (cli = none → ∀ w, envVal = some w → resolved = w) ∧
  (cli = none → envVal = none → resolved = dflt)

/-- Precedence of an explicit flag over a variable, for an option whose hard
default is the absent value. -/
def PrecedenceOpt (cli envVal resolved : Option String) : Prop :=
  (∀ v, cli = some v → resolved = some v) ∧
  (cli = none → ∀ w, envVal = some w → resolved = some w) ∧
  (cli = none → envVal = none → resolved = none)

/-- `Modelled from the spec:` the five recognized file strategies of the
missing materialization core. -/
inductive FileStrategy where
  | overwrite
  | skip
  | append
  | rename
  | backup
  deriving DecidableEq, Repr

/-- `Modelled from the spec:` the per-node conflict decision values of the
missing materialization core. -/
inductive ConflictOutcome where
  | write
  | skip
  | append
  | renameAndWrite (candidate : String)
  | backupThenWrite
  deriving DecidableEq, Repr

/-- `Modelled from the spec:` configuration errors of the missing core,
fatal and raised before materialization begins. -/
inductive ConfigError where
  | invalidStrategy (name : String)
  | missingBackupRoot
  | invalidPath (path : String)
  deriving DecidableEq, Repr

/-- `Modelled from the spec:` parsing of a strategy name by the missing
core; any name other than the five recognized ones is an
`InvalidStrategyError`. -/
def parseStrategy (s : String) : Except ConfigError FileStrategy :=
  if s = "overwrite" then .ok .overwrite
  else if s = "skip" then .ok .skip
  else if s = "append" then .ok .append
  else if s = "rename" then .ok .rename
  else if s = "backup" then .ok .backup
  else .error (.invalidStrategy s)

/-- The five recognized strategy names. -/
def validStrategyNames : List String :=
  ["overwrite", "skip", "append", "rename", "backup"]

/-- A filesystem entry: a file with its content, or a directory. -/
inductive FSEntry where
  | file (content : String)
  | dir
  deriving DecidableEq, Repr

/-- The filesystem as a finite map from paths to entries (later bindings
shadow earlier ones; `FS.set` keeps at most one binding per path). -/
def FS : Type := List (String × FSEntry)

/-- Look a path up in the filesystem. -/
def FS.lookup (fs : FS) (p : String) : Option FSEntry :=
  match List.find? (fun x => x.1 == p) fs with
  | some x => some x.2
  | none => none

/-- Whether a path exists in the filesystem. -/
def FS.existsPath (fs : FS) (p : String) : Bool :=
  (FS.lookup fs p).isSome

/-- Create or replace the entry at a path. -/
def FS.set (fs : FS) (p : String) (entry : FSEntry) : FS :=
  (p, entry) :: List.filter (fun x => !(x.1 == p)) fs

/-- `Modelled from the spec:` the immutable per-run configuration of the
missing materialization core. -/
structure GenerationOptions where
  basePath : String
  fileStrategy : FileStrategy
  backupRoot : Option String
  dryRun : Bool
  nonInteractive : Bool
  deriving DecidableEq, Repr

/-- Join the base directory with a node's relative path. -/
def joinPath (base rel : String) : String :=
  base ++ "/" ++ rel

/-- Split a character list at every occurrence of a separator. -/
def splitSep (sep : Char) : List Char → List (List Char)
  | [] => [[]]
  | c :: rest =>
    if c = sep then [] :: splitSep sep rest
    else
      match splitSep sep rest with
      | [] => [[c]]
      | g :: gs => (c :: g) :: gs

/-- A relative node path is invalid when it is absolute or contains a
parent-directory segment. -/
def pathIsInvalid (p : String) : Bool :=
  (match p.data with
   | '/' :: _ => true
   | _ => false) ||
  (splitSep '/' p.data).contains ['.', '.']

/-- `Modelled from the spec:` `PathResolver.resolve` of the missing core:
pure path algebra, failing with `InvalidPathError` on an absolute path or a
`..` segment. -/
def PathResolver.resolve (base rel : String) : Except ConfigError String :=
  if pathIsInvalid rel then .error (.invalidPath rel)
  else .ok (joinPath base rel)

/-- `Modelled from the spec:` a node of the parsed structure tree; a file
node's `path` is its full relative path from the base directory, as in the
spec's example scenario. -/
inductive StructureNode where
  | file (path content : String)
  | directory (path : String) (children : List StructureNode)

/-- The relative path of a node. -/
def nodePath : StructureNode → String
  | .file p _ => p
  | .directory p _ => p

/-- Suffix a filename with a counter before its extension
(`name_1.ext`, `name_2.ext`, ...). -/
def withCounterSuffix (p : String) (k : Nat) : String :=
  let parts := splitSep '.' p.data
  if parts.length ≤ 1 then p ++ "_" ++ toString k
  else
    ⟨List.intercalate ['.'] parts.dropLast ++ ('_' :: (toString k).data) ++
      ('.' :: parts.getLastD [])⟩

/-- `Modelled from the spec:` the existence probe of the missing core's
rename scheme: the first counter-suffixed variant of `p` not present in the
filesystem.  `fs.length + 1` probes always suffice to find a free name. -/
def freshVariant (fs : FS) (p : String) : String :=
  go fs p (fs.length + 1) 1
where
  /-- Bounded search for a free counter-suffixed name. -/
  go (fs : FS) (p : String) : Nat → Nat → String
    | 0, k => withCounterSuffix p k
    | fuel + 1, k =>
      if FS.existsPath fs (withCounterSuffix p k) then go fs p fuel (k + 1)
      else withCounterSuffix p k

/-- `Modelled from the spec:` `ConflictPolicy.decide` of the missing core: a
pure function of strategy, target existence and node kind; `candidate` is
the rename candidate probed at decision time. -/
def ConflictPolicy.decide (s : FileStrategy) (targetExists : Bool) (isDir : Bool)
    (candidate : String) : ConflictOutcome :=
  if !targetExists then .write
  else
    match s with
    | .overwrite => .write
    | .skip => .skip
    | .append => if isDir then .skip else .append
    | .rename => .renameAndWrite candidate
    | .backup => .backupThenWrite

/-- Per-node error kinds recovered locally during the walk. -/
inductive ErrKind where
  | typeMismatch
  | backupError
  deriving DecidableEq, Repr

/-- The recorded result for one node: a successfully executed (or, in
dry-run, merely decided) outcome, or a local failure with its error kind. -/
inductive NodeOutcome where
  | ok (c : ConflictOutcome)
  | failed (e : ErrKind)
  deriving DecidableEq, Repr

/-- Whether a recorded outcome is a failure. -/
def NodeOutcome.isFailed : NodeOutcome → Bool
  | .failed _ => true
  | .ok _ => false

/-- One line of the generation report. -/
structure ReportEntry where
  path : String
  result : NodeOutcome
  deriving DecidableEq, Repr

/-- The conflict decision for a file node against the current filesystem. -/
def fileDecision (o : GenerationOptions) (fs : FS) (p : String) : ConflictOutcome :=
  let target := joinPath o.basePath p
  ConflictPolicy.decide o.fileStrategy (FS.existsPath fs target) false (freshVariant fs target)

/-- `Modelled from the spec:` `BackupManager.backup` of the missing core:
the backup destination mirrors the node's relative path under the backup
root; an occupied destination gets a counter suffix so prior backups are
never clobbered. -/
def backupDest (fs : FS) (backupRoot rel : String) : String :=
  let d := joinPath backupRoot rel
  if FS.existsPath fs d then freshVariant fs d else d

/-- `Modelled from the spec:` execution of a decided outcome for a file
node by the missing `NodeMaterializer` (the non-dry-run path).  Targets
that turn out to be directories are per-node type-mismatch failures; a
backup without a resolvable root fails closed. -/
def applyOutcome (o : GenerationOptions) (fs : FS) (rel target content : String) :
    ConflictOutcome → FS × ReportEntry
  | .write =>
    match FS.lookup fs target with
    | some .dir => (fs, ⟨rel, .failed .typeMismatch⟩)
    | _ => (FS.set fs target (.file content), ⟨rel, .ok .write⟩)
  | .skip => (fs, ⟨rel, .ok .skip⟩)
  | .append =>
    match FS.lookup fs target with
    | some (.file c0) => (FS.set fs target (.file (c0 ++ content)), ⟨rel, .ok .append⟩)
    | _ => (fs, ⟨rel, .failed .typeMismatch⟩)
  | .renameAndWrite candidate =>
    (FS.set fs candidate (.file content), ⟨rel, .ok (.renameAndWrite candidate)⟩)
  | .backupThenWrite =>
    match o.backupRoot with
    | none => (fs, ⟨rel, .failed .backupError⟩)
    | some root =>
      match FS.lookup fs target with
      | none => (FS.set fs target (.file content), ⟨rel, .ok .write⟩)
      | some .dir => (fs, ⟨rel, .failed .typeMismatch⟩)
      | some (.file c0) =>
        let fs1 := FS.set fs (backupDest fs root rel) (.file c0)
        (FS.set fs1 target (.file content), ⟨rel, .ok .backupThenWrite⟩)

/-- One file-node visit: compute the decision; in dry-run record it without
touching the filesystem, otherwise execute it. -/
def fileStep (o : GenerationOptions) (fs : FS) (p content : String) : FS × ReportEntry :=
  let outcome := fileDecision o fs p
  if o.dryRun then (fs, ⟨p, .ok outcome⟩)
  else applyOutcome o fs p (joinPath o.basePath p) content outcome

/-- The decision for a directory node. -/
inductive DirDecision where
  | create
  | already
  | mismatch
  deriving DecidableEq, Repr

/-- What a directory node's target looks like on the current filesystem. -/
def dirDecision (o : GenerationOptions) (fs : FS) (p : String) : DirDecision :=
  match FS.lookup fs (joinPath o.basePath p) with
  | none => .create
  | some .dir => .already
  | some (.file _) => .mismatch

/-- The report entry recorded for a directory node's decision. -/
def dirEntry (p : String) : DirDecision → ReportEntry
  | .create => ⟨p, .ok .write⟩
  | .already => ⟨p, .ok .skip⟩
  | .mismatch => ⟨p, .failed .typeMismatch⟩

/-- One directory-node visit: create the directory when missing (idempotent
when it already is one; a type-mismatch failure when the path holds a file,
which short-circuits the node's descendants).  The boolean says whether to
recurse into the children. -/
def dirStep (o : GenerationOptions) (fs : FS) (p : String) : FS × ReportEntry × Bool :=
  match dirDecision o fs p with
  | .create =>
    ((if o.dryRun then fs else FS.set fs (joinPath o.basePath p) .dir),
      dirEntry p .create, true)
  | .already => (fs, dirEntry p .already, true)
  | .mismatch => (fs, dirEntry p .mismatch, false)

/-- `Modelled from the spec:` the depth-first pre-order walk of the missing
`StructureWalker`/`NodeMaterializer`: nodes in declaration order, a
directory's children before its next sibling, results accumulated in the
report. -/
def walkL (o : GenerationOptions) (fs : FS) : List StructureNode → FS × List ReportEntry
  | [] => (fs, [])
  | .file p c :: rest =>
    ((walkL o (fileStep o fs p c).1 rest).1,
      (fileStep o fs p c).2 :: (walkL o (fileStep o fs p c).1 rest).2)
  | .directory p cs :: rest =>
    if (dirStep o fs p).2.2 then
      ((walkL o (walkL o (dirStep o fs p).1 cs).1 rest).1,
        (dirStep o fs p).2.1 ::
          ((walkL o (dirStep o fs p).1 cs).2 ++
            (walkL o (walkL o (dirStep o fs p).1 cs).1 rest).2))
    else
      ((walkL o (dirStep o fs p).1 rest).1,
        (dirStep o fs p).2.1 :: (walkL o (dirStep o fs p).1 rest).2)

/-- The report a dry run produces: every node's decision against the
initial (never mutated) filesystem, in walk order. -/
def dryReportL (o : GenerationOptions) (fs : FS) : List StructureNode → List ReportEntry
  | [] => []
  | .file p _ :: rest => ⟨p, .ok (fileDecision o fs p)⟩ :: dryReportL o fs rest
  | .directory p cs :: rest =>
    match dirDecision o fs p with
    | .mismatch => dirEntry p .mismatch :: dryReportL o fs rest
    | .create => dirEntry p .create :: (dryReportL o fs cs ++ dryReportL o fs rest)
    | .already => dirEntry p .already :: (dryReportL o fs cs ++ dryReportL o fs rest)

/-- First node path in the tree (in walk order) that is absolute or
contains a `..` segment, if any. -/
def firstInvalidPath : List StructureNode → Option String
  | [] => none
  | .file p _ :: rest => if pathIsInvalid p then some p else firstInvalidPath rest
  | .directory p cs :: rest =>
    if pathIsInvalid p then some p
    else
      match firstInvalidPath cs with
      | some q => some q
      | none => firstInvalidPath rest

/-- The result of one run: final filesystem, report, configuration error if
any, and the process exit code. -/
structure RunResult where
  fs : FS
  report : List ReportEntry
  error : Option ConfigError
  exitCode : Nat

/-- `Modelled from the spec:` one run of the missing core with an already
parsed strategy: configuration validation (path safety, then the backup
root) happens before any node is visited; the exit code is non-zero iff a
configuration error occurred or some node failed. -/
def runGenerate (o : GenerationOptions) (nodes : List StructureNode) (fs : FS) : RunResult :=
  match firstInvalidPath nodes with
  | some p => ⟨fs, [], some (.invalidPath p), 1⟩
  | none =>
    if o.fileStrategy = .backup ∧ o.backupRoot = none then
      ⟨fs, [], some .missingBackupRoot, 1⟩
    else
      let r := walkL o fs nodes
      ⟨r.1, r.2, none, if r.2.any (fun e => e.result.isFailed) then 1 else 0⟩

/-- `Modelled from the spec:` the full run, starting from the strategy name:
an unrecognized name is an `InvalidStrategyError`, raised before any node
is visited. -/
def runStruct (strategyName : String) (basePath : String) (backupRoot : Option String)
    (dryRun nonInteractive : Bool) (nodes : List StructureNode) (fs : FS) : RunResult :=
  match parseStrategy strategyName with
  | .error e => ⟨fs, [], some e, 1⟩
  | .ok s => runGenerate ⟨basePath, s, backupRoot, dryRun, nonInteractive⟩ nodes fs

/-- The observable effects of one `GenerateCommand.execute` call. -/
structure ExecResult where
  createCalls : Nat
  logs : List String
  ok : Bool
  deriving DecidableEq, Repr

/-- `Modelled from the spec:` the missing `GenerateCommand.execute` as the
structures-path tests observe it: it logs the structures path when one is
set and non-empty, and invokes the structure-creation step exactly once. -/
def executeModel (a : Args) : ExecResult :=
  let logs :=
    match a.structuresPath with
    | some s => if s = "" then [] else ["Using STRUCTKIT_STRUCTURES_PATH: " ++ s]
    | none => []
  ⟨1, logs, true⟩

/-- Distribution metadata lookup for one package: its version string, or
`packageNotFound` (the `PackageNotFoundError` case of
`importlib.metadata.version`). -/
inductive MetadataResult where
  | found (version : String)
  | packageNotFound
  deriving DecidableEq, Repr

/-- The `__version__` computation of `src/struct_module/__init__.py`: the
version of the `struct` distribution, or `"unknown"` when the metadata is
unavailable.  Total: the import never raises. -/
def versionString : MetadataResult → String
  | .found v => v
  | .packageNotFound => "unknown"

/-- Membership of a node in a structure tree: at the top level, further
down the top-level list, or anywhere inside a directory's children. -/
inductive NodeIn : StructureNode → List StructureNode → Prop where
  | head (n : StructureNode) (ns : List StructureNode) : NodeIn n (n :: ns)
  | tail (n m : StructureNode) (ns : List StructureNode) :
      NodeIn n ns → NodeIn n (m :: ns)
  | child (n : StructureNode) (p : String) (cs ns : List StructureNode) :
      NodeIn n cs → NodeIn n (.directory p cs :: ns)

/-- The empty environment. -/
def envEmpty : Env := fun _ => none

/-- A sample environment setting a strategy, an output mode and a backup
path. -/
def envW : Env := fun k =>
  if k = "STRUCTKIT_FILE_STRATEGY" then some "skip"
  else if k = "STRUCTKIT_OUTPUT_MODE" then some "console"
  else if k = "STRUCTKIT_BACKUP_PATH" then some "/env/backup"
  else none

/-- `envW` extended with a variable the CLI layer does not read. -/
def envWplus : Env := fun k =>
  if k = "SOME_OTHER_VAR" then some "x" else envW k

/-- An environment setting only `STRUCTKIT_NON_INTERACTIVE` (mixed case, as
in the tests). -/
def envNI : Env := fun k =>
  if k = "STRUCTKIT_NON_INTERACTIVE" then some "TRUE" else none

/-- An environment setting `STRUCTKIT_STRUCTURES_PATH` to the empty
string. -/
def envSPempty : Env := fun k =>
  if k = "STRUCTKIT_STRUCTURES_PATH" then some "" else none

/-- An empty command line. -/
def cliEmpty : Cli := {}

/-- A command line giving every flag. -/
def cliAll : Cli where
  fileStrategy := some "rename"
  backup := some "/cli/backup"
  inputStore := some "/cli/input.json"
  structuresPath := some "/cli/structures"
  output := some "file"
  globalSystemPrompt := some "CLI prompt"
  nonInteractive := true

/-- The empty filesystem. -/
def fsEmpty : FS := []

/-- A sample filesystem with an existing directory and file. -/
def fsW : FS :=
  [("/base/app", .dir), ("/base/app/config.yaml", .file "old")]

/-- A sample structure tree (the spec's example scenario plus a second
file). -/
def nodesW : List StructureNode :=
  [.directory "app" [.file "app/config.yaml" "v=1", .file "app/new.txt" "n"]]

/-- A node with a parent-directory segment in its path. -/
def nodeBad : StructureNode := .file "../evil" "x"

/-- A tree containing `nodeBad`. -/
def nodesBad : List StructureNode := [nodeBad]

/-- Dry-run options with the rename strategy. -/
def oDry : GenerationOptions := ⟨"/base", .rename, some "/bak", true, false⟩

/-- Plain overwrite options. -/
def oWet : GenerationOptions := ⟨"/base", .overwrite, none, false, false⟩

/-- Backup strategy without a backup root. -/
def oNoRoot : GenerationOptions := ⟨"/base", .backup, none, false, false⟩

theorem precedenceStr_getD (c ev : Option String) (dflt : String) :
    PrecedenceStr c ev dflt (c.getD (ev.getD dflt)) := by
  refine ⟨?_, ?_, ?_⟩ <;> intros <;> simp_all

theorem precedenceOpt_firstSome (c ev : Option String) :
    PrecedenceOpt c ev (firstSome c ev) := by
  refine ⟨?_, ?_, ?_⟩ <;> intros <;> simp_all [firstSome]

theorem parseStrategy_of_not_valid (s : String) (h : s ∉ validStrategyNames) :
    parseStrategy s = .error (.invalidStrategy s) := by
  simp [validStrategyNames] at h
  obtain ⟨h1, h2, h3, h4, h5⟩ := h
  simp [parseStrategy, h1, h2, h3, h4, h5]

theorem parseStrategy_of_valid (s : String) (h : s ∈ validStrategyNames) :
    ∃ st, parseStrategy s = .ok st := by
  simp [validStrategyNames] at h
  rcases h with rfl | rfl | rfl | rfl | rfl
  · exact ⟨.overwrite, by simp [parseStrategy]⟩
  · exact ⟨.skip, by simp [parseStrategy]⟩
  · exact ⟨.append, by simp [parseStrategy]⟩
  · exact ⟨.rename, by simp [parseStrategy]⟩
  · exact ⟨.backup, by simp [parseStrategy]⟩

/-- C1: for every configuration option (file strategy, backup path, input
store, structures path, output mode, global system prompt, non-interactive
flag), an explicit CLI flag wins over the `STRUCTKIT_*` variable, the
variable wins over the hard default, and the hard default applies when
neither is given. -/
theorem claim_C1 (e : Env) (c : Cli) :
    PrecedenceStr c.fileStrategy (e "STRUCTKIT_FILE_STRATEGY") "overwrite"
      (resolveArgs e c).fileStrategy ∧
    PrecedenceOpt c.backup (e "STRUCTKIT_BACKUP_PATH") (resolveArgs e c).backup ∧
    PrecedenceStr c.inputStore (e "STRUCTKIT_INPUT_STORE") "/tmp/structkit/input.json"
      (resolveArgs e c).inputStore ∧
    PrecedenceOpt c.structuresPath (e "STRUCTKIT_STRUCTURES_PATH")
      (resolveArgs e c).structuresPath ∧
    PrecedenceStr c.output (e "STRUCTKIT_OUTPUT_MODE") "file" (resolveArgs e c).output ∧
    PrecedenceOpt c.globalSystemPrompt (e "STRUCTKIT_GLOBAL_SYSTEM_PROMPT")
      (resolveArgs e c).globalSystemPrompt ∧
    (c.nonInteractive = true → (resolveArgs e c).nonInteractive = true) ∧
    (c.nonInteractive = false →
      (resolveArgs e c).nonInteractive = parseBoolEnv (e "STRUCTKIT_NON_INTERACTIVE")) ∧
    (c.nonInteractive = false → e "STRUCTKIT_NON_INTERACTIVE" = none →
      (resolveArgs e c).nonInteractive = false) := by
  refine ⟨precedenceStr_getD _ _ _, precedenceOpt_firstSome _ _, precedenceStr_getD _ _ _,
    precedenceOpt_firstSome _ _, precedenceStr_getD _ _ _, precedenceOpt_firstSome _ _,
    ?_, ?_, ?_⟩
  · intro h
    simp [resolveArgs, resolveTwoPhase, parsePhase, mkDefaults, h]
  · intro h
    simp [resolveArgs, resolveTwoPhase, parsePhase, mkDefaults, h]
  · intro h h2
    simp [resolveArgs, resolveTwoPhase, parsePhase, mkDefaults, parseBoolEnv, h, h2]

theorem claim_C1_witness :
    (resolveArgs envW cliAll).fileStrategy = "rename" ∧
    (resolveArgs envW cliEmpty).output = "console" ∧
    (resolveArgs envEmpty cliEmpty).inputStore = "/tmp/structkit/input.json" :=
  ⟨(claim_C1 envW cliAll).1.1 "rename" rfl,
   (claim_C1 envW cliEmpty).2.2.2.2.1.2.1 rfl "console" (by decide),
   (claim_C1 envEmpty cliEmpty).2.2.1.2.2 rfl rfl⟩

/-- C2: exactly the five names `overwrite`, `skip`, `append`, `rename`,
`backup` are accepted strategies; with neither flag nor variable the
resolved strategy is `overwrite`; an unrecognized name fails with
`InvalidStrategyError` before any node is visited (empty report, untouched
filesystem). -/
theorem claim_C2 (e : Env) (c : Cli) (name basePath : String) (broot : Option String)
    (dr ni : Bool) (nodes : List StructureNode) (fs : FS)
    (henv : e "STRUCTKIT_FILE_STRATEGY" = none) (hcli : c.fileStrategy = none)
    (hbad : name ∉ validStrategyNames) :
    (∀ s, s ∈ validStrategyNames ↔ ∃ st, parseStrategy s = .ok st) ∧
    (resolveArgs e c).fileStrategy = "overwrite" ∧
    parseStrategy "overwrite" = .ok .overwrite ∧
    runStruct name basePath broot dr ni nodes fs =
      ⟨fs, [], some (.invalidStrategy name), 1⟩ := by
  refine ⟨?_, ?_, by simp [parseStrategy], ?_⟩
  · intro s
    constructor
    · exact parseStrategy_of_valid s
    · rintro ⟨st, hst⟩
      by_contra hnot
      rw [parseStrategy_of_not_valid s hnot] at hst
      cases hst
  · simp [resolveArgs, resolveTwoPhase, parsePhase, mkDefaults, envOr, henv, hcli]
  · simp [runStruct, parseStrategy_of_not_valid name hbad]

theorem claim_C2_witness :
    envEmpty "STRUCTKIT_FILE_STRATEGY" = none ∧ cliEmpty.fileStrategy = none ∧
    "bogus" ∉ validStrategyNames ∧
    runStruct "bogus" "/base" none false false nodesW fsEmpty =
      ⟨fsEmpty, [], some (.invalidStrategy "bogus"), 1⟩ :=
  ⟨rfl, rfl, by decide,
    (claim_C2 envEmpty cliEmpty "bogus" "/base" none false false nodesW fsEmpty rfl rfl
      (by decide)).2.2.2⟩

/-- C10: importing `struct_module` never raises: when the `struct`
distribution metadata is unavailable, `__version__` is `"unknown"`,
otherwise it is the installed version string. -/
theorem claim_C10 (m : MetadataResult) :
    (m = .packageNotFound → versionString m = "unknown") ∧
    (∀ v, m = .found v → versionString m = v) := by
  constructor
  · intro h
    subst h
    rfl
  · intro v h
    subst h
    rfl

theorem claim_C10_witness :
    versionString .packageNotFound = "unknown" ∧
    versionString (.found "1.2.3") = "1.2.3" :=
  ⟨(claim_C10 .packageNotFound).1 rfl, (claim_C10 (.found "1.2.3")).2 "1.2.3" rfl⟩

/-- C3: for every strategy, when the target does not exist the conflict
decision is `Write`, and a directory node whose target is missing is
created; the outcome is independent of the strategy. -/
theorem claim_C3 :
    (∀ (s : FileStrategy) (isDir : Bool) (cand : String),
      ConflictPolicy.decide s false isDir cand = .write) ∧
    (∀ (o : GenerationOptions) (fs : FS) (p : String), o.dryRun = false →
      FS.lookup fs (joinPath o.basePath p) = none →
      dirStep o fs p =
        (FS.set fs (joinPath o.basePath p) .dir, dirEntry p .create, true)) := by
  constructor
  · intro s isDir cand
    simp [ConflictPolicy.decide]
  · intro o fs p h1 h2
    simp [dirStep, dirDecision, h1, h2]

theorem claim_C3_witness :
    ConflictPolicy.decide .skip false true "x" = .write ∧
    oWet.dryRun = false ∧ FS.lookup fsEmpty (joinPath oWet.basePath "app") = none ∧
    dirStep oWet fsEmpty "app" =
      (FS.set fsEmpty (joinPath oWet.basePath "app") .dir, dirEntry "app" .create, true) :=
  ⟨claim_C3.1 .skip true "x", rfl, rfl, claim_C3.2 oWet fsEmpty "app" rfl rfl⟩

/-- C6: backup root defaults to the absent value, and selecting the backup
strategy without a resolvable backup root is a fatal configuration error,
raised before materialization begins (empty report, untouched filesystem),
with a non-zero exit. -/
theorem claim_C6 (o : GenerationOptions) (nodes : List StructureNode) (fs : FS)
    (hs : o.fileStrategy = .backup) (hb : o.backupRoot = none)
    (hp : firstInvalidPath nodes = none) :
    runGenerate o nodes fs = ⟨fs, [], some .missingBackupRoot, 1⟩ ∧
    (runGenerate o nodes fs).exitCode ≠ 0 ∧
    (∀ (e : Env) (c : Cli), c.backup = none → e "STRUCTKIT_BACKUP_PATH" = none →
      (resolveArgs e c).backup = none) := by
  have h1 : runGenerate o nodes fs = ⟨fs, [], some .missingBackupRoot, 1⟩ := by
    simp [runGenerate, hp, hs, hb]
  refine ⟨h1, by simp [h1], ?_⟩
  intro e c hc he
  simp [resolveArgs, resolveTwoPhase, parsePhase, firstSome, mkDefaults, hc, he]

theorem claim_C6_witness :
    oNoRoot.fileStrategy = .backup ∧ oNoRoot.backupRoot = none ∧
    firstInvalidPath ([] : List StructureNode) = none ∧
    runGenerate oNoRoot [] fsEmpty = ⟨fsEmpty, [], some .missingBackupRoot, 1⟩ := by
  have hp : firstInvalidPath ([] : List StructureNode) = none := by
    simp [firstInvalidPath]
  exact ⟨rfl, rfl, hp, (claim_C6 oNoRoot [] fsEmpty rfl rfl hp).1⟩

/-- C7: the `STRUCTKIT_*` defaults are captured exactly once, at
construction: the resolved values never depend on the environment at
parse time, and they depend on the construction-time environment only
through the `STRUCTKIT_*` keys. -/
theorem claim_C7 (e1 e1' e2 e2' : Env) (c : Cli)
    (hagree : ∀ k, k ∈ structkitKeys → e1 k = e1' k) :
    resolveTwoPhase e1 e2 c = resolveTwoPhase e1 e2' c ∧
    resolveTwoPhase e1 e2 c = resolveArgs e1 c ∧
    resolveArgs e1 c = resolveArgs e1' c := by
  refine ⟨rfl, rfl, ?_⟩
  have h1 := hagree "STRUCTKIT_FILE_STRATEGY" (by decide)
  have h2 := hagree "STRUCTKIT_BACKUP_PATH" (by decide)
  have h3 := hagree "STRUCTKIT_INPUT_STORE" (by decide)
  have h4 := hagree "STRUCTKIT_STRUCTURES_PATH" (by decide)
  have h5 := hagree "STRUCTKIT_OUTPUT_MODE" (by decide)
  have h6 := hagree "STRUCTKIT_GLOBAL_SYSTEM_PROMPT" (by decide)
  have h7 := hagree "STRUCTKIT_NON_INTERACTIVE" (by decide)
  simp [resolveArgs, resolveTwoPhase, parsePhase, mkDefaults, envOr,
    h1, h2, h3, h4, h5, h6, h7]

theorem claim_C7_witness :
    resolveTwoPhase envW envEmpty cliEmpty = resolveTwoPhase envW envNI cliEmpty ∧
    resolveArgs envW cliEmpty = resolveArgs envWplus cliEmpty := by
  have hag : ∀ k, k ∈ structkitKeys → envW k = envWplus k := by
    intro k hk
    simp [structkitKeys] at hk
    rcases hk with rfl | rfl | rfl | rfl | rfl | rfl | rfl <;> decide
  exact ⟨(claim_C7 envW envWplus envEmpty envNI cliEmpty hag).1,
    (claim_C7 envW envWplus envEmpty envNI cliEmpty hag).2.2⟩

/-- C8: `STRUCTKIT_NON_INTERACTIVE` parses to a boolean
case-insensitively: true iff its value, lowercased, is `true`, `1` or
`yes`; every other value (the empty string included) and the unset case
give false; the resolved flag equals this parse when the CLI flag is
absent. -/
theorem claim_C8 (e : Env) (c : Cli) (h : c.nonInteractive = false) :
    (resolveArgs e c).nonInteractive = parseBoolEnv (e "STRUCTKIT_NON_INTERACTIVE") ∧
    (∀ s, parseBoolEnv (some s) = true ↔
      (lowerString s = "true" ∨ lowerString s = "1" ∨ lowerString s = "yes")) ∧
    parseBoolEnv (some "") = false ∧ parseBoolEnv none = false := by
  refine ⟨?_, ?_, by decide, rfl⟩
  · simp [resolveArgs, resolveTwoPhase, parsePhase, mkDefaults, h]
  · intro s
    simp [parseBoolEnv, or_assoc]

theorem claim_C8_witness :
    cliEmpty.nonInteractive = false ∧
    (resolveArgs envNI cliEmpty).nonInteractive =
      parseBoolEnv (envNI "STRUCTKIT_NON_INTERACTIVE") ∧
    parseBoolEnv (some "TRUE") = true :=
  ⟨rfl, (claim_C8 envNI cliEmpty rfl).1, by decide⟩

/-- C9: an empty `STRUCTKIT_STRUCTURES_PATH` is not fatal: execution still
runs the structure-creation step exactly once and the resolved structures
path is the empty string or absent. -/
theorem claim_C9 (e : Env) (c : Cli)
    (henv : e "STRUCTKIT_STRUCTURES_PATH" = some "") (hcli : c.structuresPath = none) :
    executeModel (resolveArgs e c) = ⟨1, [], true⟩ ∧
    ((resolveArgs e c).structuresPath = some "" ∨
      (resolveArgs e c).structuresPath = none) := by
  have hsp : (resolveArgs e c).structuresPath = some "" := by
    simp [resolveArgs, resolveTwoPhase, parsePhase, mkDefaults, firstSome, hcli, henv]
  refine ⟨?_, .inl hsp⟩
  simp [executeModel, hsp]

theorem claim_C9_witness :
    envSPempty "STRUCTKIT_STRUCTURES_PATH" = some "" ∧ cliEmpty.structuresPath = none ∧
    executeModel (resolveArgs envSPempty cliEmpty) = ⟨1, [], true⟩ :=
  ⟨rfl, rfl, (claim_C9 envSPempty cliEmpty rfl rfl).1⟩

/-- C4: under `dry_run = true` the walk mutates nothing — the final
filesystem is the initial one — and the report still records, for each
node in walk order, the decision that would have been executed. -/
theorem claim_C4 (o : GenerationOptions) (fs : FS) (ns : List StructureNode)
    (h : o.dryRun = true) : walkL o fs ns = (fs, dryReportL o fs ns) := by
  induction fs, ns using walkL.induct o with
  | case1 fs => simp [walkL, dryReportL]
  | case2 fs p c rest ih =>
    simp only [fileStep, h, if_true] at ih
    simp [walkL, dryReportL, fileStep, h, ih]
  | case3 fs p cs rest hrec ih1 ih2 =>
    rcases hd : dirDecision o fs p with _ | _ | _
    · simp only [dirStep, hd, h, if_true] at ih1 ih2
      simp only [ih1] at ih2
      simp [walkL, dryReportL, dirStep, hd, h, ih1, ih2]
    · simp only [dirStep, hd] at ih1 ih2
      simp only [ih1] at ih2
      simp [walkL, dryReportL, dirStep, hd, ih1, ih2]
    · simp [dirStep, hd] at hrec
  | case4 fs p cs rest hrec ih =>
    rcases hd : dirDecision o fs p with _ | _ | _
    · simp [dirStep, hd, h] at hrec
    · simp [dirStep, hd] at hrec
    · simp only [dirStep, hd] at ih
      simp [walkL, dryReportL, dirStep, hd, ih]

theorem claim_C4_witness :
    oDry.dryRun = true ∧ walkL oDry fsW nodesW = (fsW, dryReportL oDry fsW nodesW) :=
  ⟨rfl, claim_C4 oDry fsW nodesW rfl⟩

theorem firstInvalidPath_sound (ns : List StructureNode) (q : String)
    (h : firstInvalidPath ns = some q) : pathIsInvalid q = true := by
  induction ns using firstInvalidPath.induct with
  | case1 => simp [firstInvalidPath] at h
  | case2 p c rest hp =>
    simp only [firstInvalidPath, hp, if_true] at h
    cases h
    exact hp
  | case3 p c rest hp ih =>
    simp only [firstInvalidPath, hp, if_false] at h
    exact ih h
  | case4 p cs rest hp =>
    simp only [firstInvalidPath, hp, if_true] at h
    cases h
    exact hp
  | case5 p cs rest hp r hr ihcs =>
    simp only [firstInvalidPath, hp, hr, if_false] at h
    cases h
    exact ihcs hr
  | case6 p cs rest hp hr ihcs ihrest =>
    simp only [firstInvalidPath, hp, hr, if_false] at h
    exact ihrest h

theorem nodeIn_firstInvalid (n : StructureNode) (ns : List StructureNode)
    (hin : NodeIn n ns) (hbad : pathIsInvalid (nodePath n) = true) :
    ∃ q, firstInvalidPath ns = some q ∧ pathIsInvalid q = true := by
  induction hin with
  | head ns =>
    cases n with
    | file p c =>
      simp only [nodePath] at hbad
      exact ⟨p, by simp [firstInvalidPath, hbad], hbad⟩
    | directory p cs =>
      simp only [nodePath] at hbad
      exact ⟨p, by simp [firstInvalidPath, hbad], hbad⟩
  | tail m ns hin ih =>
    obtain ⟨q, hq, hqbad⟩ := ih
    cases m with
    | file p c =>
      by_cases hp : pathIsInvalid p = true
      · exact ⟨p, by simp [firstInvalidPath, hp], hp⟩
      · simp only [Bool.not_eq_true] at hp
        exact ⟨q, by simp [firstInvalidPath, hp, hq], hqbad⟩
    | directory p cs =>
      by_cases hp : pathIsInvalid p = true
      · exact ⟨p, by simp [firstInvalidPath, hp], hp⟩
      · simp only [Bool.not_eq_true] at hp
        rcases hcs : firstInvalidPath cs with _ | r
        · exact ⟨q, by simp [firstInvalidPath, hp, hcs, hq], hqbad⟩
        · exact ⟨r, by simp [firstInvalidPath, hp, hcs],
            firstInvalidPath_sound cs r hcs⟩
  | child p cs ns hin ih =>
    obtain ⟨q, hq, hqbad⟩ := ih
    by_cases hp : pathIsInvalid p = true
    · exact ⟨p, by simp [firstInvalidPath, hp], hp⟩
    · simp only [Bool.not_eq_true] at hp
      exact ⟨q, by simp [firstInvalidPath, hp, hq], hqbad⟩

/-- C5: a structure node whose relative path is absolute or contains a
parent-directory segment makes the run fail with `InvalidPathError` before
materialization begins: the report is empty and the filesystem untouched. -/
theorem claim_C5 (o : GenerationOptions) (nodes : List StructureNode) (fs : FS)
    (n : StructureNode) (hin : NodeIn n nodes)
    (hbad : pathIsInvalid (nodePath n) = true) :
    ∃ q, pathIsInvalid q = true ∧
      runGenerate o nodes fs = ⟨fs, [], some (.invalidPath q), 1⟩ := by
  obtain ⟨q, hq, hqbad⟩ := nodeIn_firstInvalid n nodes hin hbad
  exact ⟨q, hqbad, by simp [runGenerate, hq]⟩

theorem claim_C5_witness :
    NodeIn nodeBad nodesBad ∧ pathIsInvalid (nodePath nodeBad) = true ∧
    ∃ q, pathIsInvalid q = true ∧
      runGenerate oWet nodesBad fsEmpty = ⟨fsEmpty, [], some (.invalidPath q), 1⟩ :=
  ⟨.head nodeBad [], by decide,
    claim_C5 oWet nodesBad fsEmpty nodeBad (.head nodeBad []) (by decide)⟩

end Structkit
